import Mathlib

/-!
Shallow embedding of `slack2discord/message.py`.

The module converts a parsed Slack message (text, link attachments, files)
into the keyword arguments of the Discord client's send call and the
argument list of its add_files call.  Python `None` / missing-key values
become `Option` values; Python lists become Lean `List`s; the mutating
methods `add_link` / `add_file` become state-transforming functions on
`ParsedMessage`; logging side effects relevant to the claims are modelled
as explicit boolean observations.
-/

/-- Embedding of the module constant `MAX_DISCORD_EMBEDS = 10`, the maximum
number of embeds Discord accepts in a single send. -/
def MAX_DISCORD_EMBEDS : Nat := 10

/-- Modelled from the spec: `SlackParser.unescape_url` lives in
`slack2discord/parser.py`, which is not part of the sources here.  The spec
describes it as a URL normalizer performing HTML-entity decoding of
ampersands etc. (an input containing the escaped ampersand sequence is
stored decoded), with missing values mapping to absent values. -/
def unescape_url : Option String → Option String
  | none => none
  | some s => some (s.replace "&amp;" "&")

/-- Embedding of class `MessageLink`: the display fields of one Slack link
attachment.  In the Python constructor every parameter defaults to `None`. -/
structure MessageLink where
  title : Option String := none
  title_link : Option String := none
  text : Option String := none
  service_name : Option String := none
  service_icon : Option String := none
  image_url : Option String := none
  thumb_url : Option String := none
  deriving DecidableEq

/-- Embedding of class `MessageFile`: identity of one attached file.  The
constructor stores `id`, `name` and `url` and always initializes
`local_filename` to `None`; an external downloader mutates it later. -/
structure MessageFile where
  id : Option String
  name : Option String
  url : Option String
  local_filename : Option String
  deriving DecidableEq

/-- Embedding of class `ParsedMessage`: the intermediate message record. -/
structure ParsedMessage where
  text : String
  links : List MessageLink
  files : List MessageFile
  deriving DecidableEq

/-- Embedding of `ParsedMessage.__init__(text)`: empty link and file lists. -/
def ParsedMessage.init (text : String) : ParsedMessage :=
  { text := text, links := [], files := [] }

/-- Embedding of the static helper `ParsedMessage.str_or_none`:
`None` renders unquoted as `None`, a real string renders wrapped in single
quotes (the quote character is written `\x27`). -/
def ParsedMessage.str_or_none : Option String → String
  | none => "None"
  | some s => "\x27" ++ s ++ "\x27"

/-- Embedding of the argument mapping accepted by `add_link`: a Python dict
read with `.get(key)`, so every key is optional. -/
structure LinkDict where
  title : Option String := none
  title_link : Option String := none
  text : Option String := none
  service_name : Option String := none
  service_icon : Option String := none
  image_url : Option String := none
  thumb_url : Option String := none
  deriving DecidableEq

/-- Embedding of the argument mapping accepted by `add_file`. -/
structure FileDict where
  id : Option String := none
  name : Option String := none
  url_private : Option String := none
  deriving DecidableEq

/-- The `MessageLink(...)` construction performed inside `add_link`:
`title`, `text`, `service_name` are stored as-is, the four URL-bearing
fields pass through `SlackParser.unescape_url` first. -/
def linkOfDict (d : LinkDict) : MessageLink :=
  { title := d.title
    title_link := unescape_url d.title_link
    text := d.text
    service_name := d.service_name
    service_icon := unescape_url d.service_icon
    image_url := unescape_url d.image_url
    thumb_url := unescape_url d.thumb_url }

/-- The `MessageFile(...)` construction performed inside `add_file`:
`url_private` is unescaped and stored as `url`; `local_filename` starts
unset (the Python constructor sets it to `None`). -/
def fileOfDict (d : FileDict) : MessageFile :=
  { id := d.id
    name := d.name
    url := unescape_url d.url_private
    local_filename := none }

/-- Embedding of `ParsedMessage.add_link`: constructs the link record and
appends it to `self.links` (the logging calls have no effect on state). -/
def ParsedMessage.add_link (m : ParsedMessage) (d : LinkDict) : ParsedMessage :=
  { m with links := m.links ++ [linkOfDict d] }

/-- Embedding of `ParsedMessage.add_file`: constructs the file record and
appends it to `self.files`. -/
def ParsedMessage.add_file (m : ParsedMessage) (d : FileDict) : ParsedMessage :=
  { m with files := m.files ++ [fileOfDict d] }

/-- A whole sequence of `add_link` calls, first call first. -/
def addLinks (m : ParsedMessage) (ds : List LinkDict) : ParsedMessage :=
  ds.foldl ParsedMessage.add_link m

/-- A whole sequence of `add_file` calls, first call first. -/
def addFiles (m : ParsedMessage) (ds : List FileDict) : ParsedMessage :=
  ds.foldl ParsedMessage.add_file m

/-- Python truthiness of an optional string: `None` and the empty string
are falsy, every other string is truthy.  This is the test performed by
`if link.service_name or link.service_icon:` etc. -/
def truthy : Option String → Bool
  | none => false
  | some s => !s.isEmpty

/-- The author sub-block set by `discord.Embed.set_author`. -/
structure EmbedAuthor where
  name : Option String
  icon_url : Option String
  deriving DecidableEq

/-- Embedding of the `discord.Embed` object as built by
`get_discord_send_kwargs`: the constructor fields plus the three
optionally-set sub-blocks, each absent unless the corresponding setter ran. -/
structure Embed where
  title : Option String
  url : Option String
  description : Option String
  author : Option EmbedAuthor := none
  image : Option String := none
  thumbnail : Option String := none
  deriving DecidableEq

/-- The embed built from one link in the loop body of
`get_discord_send_kwargs`: `discord.Embed(title, url, description)` followed
by `set_author` if `service_name or service_icon` is truthy, `set_image` if
`image_url` is truthy, `set_thumbnail` if `thumb_url` is truthy.  Each
setter determines exactly one field of the result. -/
def linkToEmbed (link : MessageLink) : Embed :=
  { title := link.title
    url := link.title_link
    description := link.text
    author :=
      if truthy link.service_name || truthy link.service_icon then
        some { name := link.service_name, icon_url := link.service_icon }
      else none
    image := if truthy link.image_url then link.image_url else none
    thumbnail := if truthy link.thumb_url then link.thumb_url else none }

/-- The dict returned by `get_discord_send_kwargs`:
`{ content: self.text, embeds: <list or None> }`. -/
structure SendKwargs where
  content : String
  embeds : Option (List Embed)
  deriving DecidableEq

/-- Embedding of `ParsedMessage.get_discord_send_kwargs`: if `self.links`
is truthy (non-empty), the embeds value is the slice
`self.links[:min(len(self.links), MAX_DISCORD_EMBEDS)]` mapped through the
embed construction; otherwise `embeds` is `None`. -/
def ParsedMessage.get_discord_send_kwargs (m : ParsedMessage) : SendKwargs :=
  if !m.links.isEmpty then
    { content := m.text
      embeds := some ((m.links.take (min m.links.length MAX_DISCORD_EMBEDS)).map linkToEmbed) }
  else
    { content := m.text, embeds := none }

/-- Observation of the `logger.warning` call in `get_discord_send_kwargs`:
it fires exactly when `self.links` is truthy and
`len(self.links) > MAX_DISCORD_EMBEDS`. -/
def ParsedMessage.send_warning_logged (m : ParsedMessage) : Bool :=
  !m.links.isEmpty && decide (m.links.length > MAX_DISCORD_EMBEDS)

/-- Embedding of the `discord.File(file.local_filename, filename=file.name)`
construction: the first (positional) argument is the actual file to upload,
`filename` is what Discord should call the file. -/
structure DiscordFile where
  fp : Option String
  filename : Option String
  deriving DecidableEq

/-- Embedding of `ParsedMessage.get_discord_add_files_args`: `None` when
`self.files` is empty, otherwise one `discord.File` per recorded file, in
list order. -/
def ParsedMessage.get_discord_add_files_args (m : ParsedMessage) :
    Option (List DiscordFile) :=
  if m.files.isEmpty then none
  else some (m.files.map (fun f => { fp := f.local_filename, filename := f.name }))

/-- State-passing form of `get_discord_send_kwargs`.  The method body reads
`self.text` and `self.links` and assigns no attribute of `self`, so the
post-state it leaves behind is the pre-state. -/
def ParsedMessage.get_discord_send_kwargs_st (m : ParsedMessage) :
    SendKwargs × ParsedMessage :=
  (m.get_discord_send_kwargs, m)

/-- State-passing form of `get_discord_add_files_args`.  The method body
reads `self.files` and assigns no attribute of `self`. -/
def ParsedMessage.get_discord_add_files_args_st (m : ParsedMessage) :
    Option (List DiscordFile) × ParsedMessage :=
  (m.get_discord_add_files_args, m)

/-- One `key='{str_or_none(value)}'` fragment of `MessageLink.__repr__`:
the helper output is wrapped in a further pair of single quote characters
by the surrounding f-string. -/
def quotedField (key : String) (v : Option String) : String :=
  key ++ "=\x27" ++ ParsedMessage.str_or_none v ++ "\x27"

/-- Embedding of `MessageLink.__repr__`, fragment by fragment. -/
def MessageLink.repr (l : MessageLink) : String :=
  "MessageLink(" ++ quotedField "title" l.title ++ ","
    ++ " " ++ quotedField "title_link" l.title_link ++ ","
    ++ " " ++ quotedField "text" l.text ++ ","
    ++ " " ++ quotedField "service_name" l.service_name ++ ","
    ++ " " ++ quotedField "service_icon" l.service_icon ++ ","
    ++ " " ++ quotedField "image_url" l.image_url ++ ","
    ++ " " ++ quotedField "thumb_url" l.thumb_url ++ ")"

/-! ### Shared helper lemmas -/

theorem string_append_assoc (a b c : String) : a ++ b ++ c = a ++ (b ++ c) := by
  apply String.ext
  simp [String.data_append]

theorem addLinks_links (ds : List LinkDict) (m : ParsedMessage) :
    (addLinks m ds).links = m.links ++ ds.map linkOfDict := by
  induction ds generalizing m with
  | nil => simp [addLinks]
  | cons d ds ih =>
    rw [addLinks, List.foldl_cons, ← addLinks, ih]
    simp [ParsedMessage.add_link]

theorem addFiles_files (ds : List FileDict) (m : ParsedMessage) :
    (addFiles m ds).files = m.files ++ ds.map fileOfDict := by
  induction ds generalizing m with
  | nil => simp [addFiles]
  | cons d ds ih =>
    rw [addFiles, List.foldl_cons, ← addFiles, ih]
    simp [ParsedMessage.add_file]

/-! ### Claim theorems -/

/-- C8: `str_or_none None` is the unquoted 4-character literal `None`, while
`str_or_none` applied to a string `s` returns `s` surrounded by single
quotes, so `str_or_none "x"` is a 3-character quoted literal; in particular
the rendering of an absent value differs from that of the string `"None"`. -/
theorem c8_str_or_none_quoting :
    ParsedMessage.str_or_none none = "None"
    ∧ (ParsedMessage.str_or_none none).length = 4
    ∧ (∀ s : String, ParsedMessage.str_or_none (some s) = "\x27" ++ s ++ "\x27")
    ∧ ParsedMessage.str_or_none (some "x") = "\x27x\x27"
    ∧ (ParsedMessage.str_or_none (some "x")).length = 3
    ∧ ParsedMessage.str_or_none none ≠ ParsedMessage.str_or_none (some "None") :=
  ⟨rfl, by decide, fun _ => rfl, by decide, by decide, by decide⟩

/-- C9: every field fragment of `MessageLink.__repr__` wraps the
`str_or_none` output in one additional pair of single quotes, so an absent
field renders quoted as `'None'` — exactly the rendering `str_or_none`
gives the genuine string `"None"`, defeating the quoting convention — and a
present string `"x"` renders doubly quoted as `''x''`. -/
theorem c9_repr_double_quoting :
    (∀ v : Option String,
      quotedField "title" v = "title=" ++ "\x27" ++ ParsedMessage.str_or_none v ++ "\x27")
    ∧ "\x27" ++ ParsedMessage.str_or_none none ++ "\x27"
        = ParsedMessage.str_or_none (some "None")
    ∧ quotedField "title" none = "title=\x27None\x27"
    ∧ quotedField "title" (some "x") = "title=\x27\x27x\x27\x27"
    ∧ MessageLink.repr {} =
        "MessageLink(title=\x27None\x27, title_link=\x27None\x27, text=\x27None\x27,"
          ++ " service_name=\x27None\x27, service_icon=\x27None\x27,"
          ++ " image_url=\x27None\x27, thumb_url=\x27None\x27)" := by
  have hk : "title" ++ "=\x27" = "title=" ++ "\x27" := by decide
  refine ⟨?_, by decide, by decide, by decide, by decide⟩
  intro v
  unfold quotedField
  rw [hk]

/-- C6: `add_link` stores `title`, `text`, `service_name` as-is and passes
the four URL-bearing fields through the URL unescaper; `add_file` stores the
unescaped `url_private` as `url`; missing keys are stored as absent values
(the unescaper maps an absent value to an absent value). -/
theorem c6_stored_fields_normalized (d : LinkDict) (e : FileDict) :
    (linkOfDict d).title = d.title
    ∧ (linkOfDict d).text = d.text
    ∧ (linkOfDict d).service_name = d.service_name
    ∧ (linkOfDict d).title_link = unescape_url d.title_link
    ∧ (linkOfDict d).service_icon = unescape_url d.service_icon
    ∧ (linkOfDict d).image_url = unescape_url d.image_url
    ∧ (linkOfDict d).thumb_url = unescape_url d.thumb_url
    ∧ (fileOfDict e).url = unescape_url e.url_private
    ∧ unescape_url none = none :=
  ⟨rfl, rfl, rfl, rfl, rfl, rfl, rfl, rfl, rfl⟩

/-- C7: the two getters leave the `ParsedMessage` unchanged — its text,
links and files (including each file's `local_filename`) are identical
before and after either call. -/
theorem c7_getters_leave_message_unchanged (m : ParsedMessage) :
    m.get_discord_send_kwargs_st.2 = m
    ∧ m.get_discord_send_kwargs_st.2.text = m.text
    ∧ m.get_discord_send_kwargs_st.2.links = m.links
    ∧ m.get_discord_send_kwargs_st.2.files = m.files
    ∧ m.get_discord_add_files_args_st.2 = m
    ∧ m.get_discord_add_files_args_st.2.files.map MessageFile.local_filename
        = m.files.map MessageFile.local_filename :=
  ⟨rfl, rfl, rfl, rfl, rfl, rfl⟩

/-- C3: the send payload's `content` equals the message text, and `embeds`
is null exactly when no links were added. -/
theorem c3_content_and_embeds_null_iff_no_links (m : ParsedMessage) :
    m.get_discord_send_kwargs.content = m.text
    ∧ (m.get_discord_send_kwargs.embeds = none ↔ m.links = []) := by
  cases hl : m.links with
  | nil => simp [ParsedMessage.get_discord_send_kwargs, hl]
  | cons a t => simp [ParsedMessage.get_discord_send_kwargs, hl]

/-- Witness for C3 at a concrete message with no links. -/
theorem c3_witness :
    (ParsedMessage.init "hello").get_discord_send_kwargs.embeds = none
    ∧ (ParsedMessage.init "hello").get_discord_send_kwargs.content = "hello" :=
  ⟨(c3_content_and_embeds_null_iff_no_links (ParsedMessage.init "hello")).2.mpr rfl,
   (c3_content_and_embeds_null_iff_no_links (ParsedMessage.init "hello")).1⟩

theorem truthy_isSome (v : Option String) : truthy v = true → v.isSome = true := by
  cases v <;> simp [truthy]

/-- C2: each retained link's embed carries `title`, `url`, `description`
from `title`, `title_link`, `text`; an author sub-block only if
`service_name` or `service_icon` is present (with `name`/`icon_url` taken
from those fields), an image block only if `image_url` is present, a
thumbnail block only if `thumb_url` is present; absent optional fields stay
omitted from the embed. -/
theorem c2_embed_field_mapping (link : MessageLink) :
    (linkToEmbed link).title = link.title
    ∧ (linkToEmbed link).url = link.title_link
    ∧ (linkToEmbed link).description = link.text
    ∧ ((linkToEmbed link).author.isSome = true →
        (link.service_name.isSome || link.service_icon.isSome) = true)
    ∧ (∀ a, (linkToEmbed link).author = some a →
        a.name = link.service_name ∧ a.icon_url = link.service_icon)
    ∧ ((linkToEmbed link).image.isSome = true → link.image_url.isSome = true)
    ∧ ((linkToEmbed link).image.isSome = true → (linkToEmbed link).image = link.image_url)
    ∧ ((linkToEmbed link).thumbnail.isSome = true → link.thumb_url.isSome = true)
    ∧ ((linkToEmbed link).thumbnail.isSome = true →
        (linkToEmbed link).thumbnail = link.thumb_url)
    ∧ (link.service_name = none → link.service_icon = none →
        (linkToEmbed link).author = none)
    ∧ (link.image_url = none → (linkToEmbed link).image = none)
    ∧ (link.thumb_url = none → (linkToEmbed link).thumbnail = none) := by
  refine ⟨rfl, rfl, rfl, ?_, ?_, ?_, ?_, ?_, ?_, ?_, ?_, ?_⟩
  · intro ha
    simp only [linkToEmbed] at ha
    by_cases hc : (truthy link.service_name || truthy link.service_icon) = true
    · have hc2 : truthy link.service_name = true ∨ truthy link.service_icon = true := by
        simpa using hc
      rcases hc2 with h1 | h1
      · simp [truthy_isSome _ h1]
      · simp [truthy_isSome _ h1]
    · rw [if_neg hc] at ha
      simp at ha
  · intro a ha
    simp only [linkToEmbed] at ha
    split at ha
    · injection ha with h
      subst h
      exact ⟨rfl, rfl⟩
    · exact Option.noConfusion ha
  · simp only [linkToEmbed]
    split
    · next hc => intro _; exact truthy_isSome _ hc
    · intro h; simp at h
  · simp only [linkToEmbed]
    split
    · intro _; rfl
    · intro h; simp at h
  · simp only [linkToEmbed]
    split
    · next hc => intro _; exact truthy_isSome _ hc
    · intro h; simp at h
  · simp only [linkToEmbed]
    split
    · intro _; rfl
    · intro h; simp at h
  · intro h1 h2; simp [linkToEmbed, h1, h2, truthy]
  · intro h; simp [linkToEmbed, h, truthy]
  · intro h; simp [linkToEmbed, h, truthy]

/-- Witness for C2 at a link carrying only `title` and `title_link`: the
embed keeps both and has no author, image or thumbnail sub-block. -/
theorem c2_witness :
    (linkToEmbed { title := some "t", title_link := some "u" }).title = some "t"
    ∧ (linkToEmbed { title := some "t", title_link := some "u" }).url = some "u"
    ∧ (linkToEmbed { title := some "t", title_link := some "u" }).author = none
    ∧ (linkToEmbed { title := some "t", title_link := some "u" }).image = none
    ∧ (linkToEmbed { title := some "t", title_link := some "u" }).thumbnail = none := by
  have h := c2_embed_field_mapping { title := some "t", title_link := some "u" }
  exact ⟨h.1, h.2.1, h.2.2.2.2.2.2.2.2.2.1 rfl rfl,
    h.2.2.2.2.2.2.2.2.2.2.1 rfl, h.2.2.2.2.2.2.2.2.2.2.2 rfl⟩

/-- C10: the presence tests in the embed construction are Python truthiness
tests, so empty-string fields behave like absent ones: no author sub-block
when both author fields are the empty string, no image or thumbnail block
when those URLs are the empty string. -/
theorem c10_truthiness_not_null_tests (link : MessageLink) :
    (link.service_name = some "" → link.service_icon = some "" →
      (linkToEmbed link).author = none)
    ∧ (link.image_url = some "" → (linkToEmbed link).image = none)
    ∧ (link.thumb_url = some "" → (linkToEmbed link).thumbnail = none) := by
  refine ⟨?_, ?_, ?_⟩
  · intro h1 h2
    simp [linkToEmbed, h1, h2, truthy]
    decide
  · intro h
    simp [linkToEmbed, h, truthy]
    decide
  · intro h
    simp [linkToEmbed, h, truthy]
    decide

/-- Witness for C10 at a link whose optional fields are all empty strings. -/
theorem c10_witness :
    (linkToEmbed { service_name := some "", service_icon := some "", image_url := some "", thumb_url := some "" }).author = none
    ∧ (linkToEmbed { service_name := some "", service_icon := some "", image_url := some "", thumb_url := some "" }).image = none
    ∧ (linkToEmbed { service_name := some "", service_icon := some "", image_url := some "", thumb_url := some "" }).thumbnail = none := by
  have h := c10_truthiness_not_null_tests { service_name := some "", service_icon := some "", image_url := some "", thumb_url := some "" }
  exact ⟨h.1 rfl rfl, h.2.1 rfl, h.2.2 rfl⟩

/-- C5: sequences of `add_link` / `add_file` calls append in call order,
the resulting lengths equal the starting length plus the number of calls,
and each single call appends exactly one record. -/
theorem c5_append_order_and_length (m : ParsedMessage)
    (ds : List LinkDict) (es : List FileDict) :
    (addLinks m ds).links = m.links ++ ds.map linkOfDict
    ∧ (addLinks m ds).links.length = m.links.length + ds.length
    ∧ (addFiles m es).files = m.files ++ es.map fileOfDict
    ∧ (addFiles m es).files.length = m.files.length + es.length
    ∧ (∀ d, (m.add_link d).links = m.links ++ [linkOfDict d]
        ∧ (m.add_link d).links.length = m.links.length + 1)
    ∧ (∀ e, (m.add_file e).files = m.files ++ [fileOfDict e]
        ∧ (m.add_file e).files.length = m.files.length + 1) := by
  refine ⟨addLinks_links ds m, ?_, addFiles_files es m, ?_, ?_, ?_⟩
  · rw [addLinks_links]; simp
  · rw [addFiles_files]; simp
  · intro d; exact ⟨rfl, by simp [ParsedMessage.add_link]⟩
  · intro e; exact ⟨rfl, by simp [ParsedMessage.add_file]⟩

/-- C4: `get_discord_add_files_args` returns null exactly when no files were
added; otherwise it returns one descriptor per file in append order, each
pairing the file's `local_filename` with its display `name`. -/
theorem c4_add_files_args (m : ParsedMessage) :
    (m.get_discord_add_files_args = none ↔ m.files = [])
    ∧ (∀ l, m.get_discord_add_files_args = some l →
        l = m.files.map
            (fun f => ({ fp := f.local_filename, filename := f.name } : DiscordFile))
        ∧ l.length = m.files.length) := by
  constructor
  · cases hf : m.files <;> simp [ParsedMessage.get_discord_add_files_args, hf]
  · intro l hl
    unfold ParsedMessage.get_discord_add_files_args at hl
    split at hl
    · exact Option.noConfusion hl
    · have heq := Option.some.inj hl
      constructor
      · exact heq.symm
      · rw [← heq]; simp

/-- Witness for C4 at a message with exactly one file. -/
theorem c4_witness :
    [({ fp := some "p", filename := some "n" } : DiscordFile)]
        = (ParsedMessage.mk "t" [] [{ id := some "1", name := some "n", url := some "u", local_filename := some "p" }]).files.map
            (fun f => ({ fp := f.local_filename, filename := f.name } : DiscordFile))
    ∧ [({ fp := some "p", filename := some "n" } : DiscordFile)].length
        = (ParsedMessage.mk "t" [] [{ id := some "1", name := some "n", url := some "u", local_filename := some "p" }]).files.length := by
  have h := c4_add_files_args (ParsedMessage.mk "t" [] [{ id := some "1", name := some "n", url := some "u", local_filename := some "p" }])
  exact h.2 [{ fp := some "p", filename := some "n" }] (by decide)

/-- C1: when more than `MAX_DISCORD_EMBEDS` links were added, the send
payload carries exactly the first ten links' embeds, in append order, and
the warning fires; no error is raised (the function is total). -/
theorem c1_truncates_to_ten_embeds (m : ParsedMessage)
    (h : MAX_DISCORD_EMBEDS < m.links.length) :
    m.get_discord_send_kwargs.embeds
        = some ((m.links.take MAX_DISCORD_EMBEDS).map linkToEmbed)
    ∧ ((m.links.take MAX_DISCORD_EMBEDS).map linkToEmbed).length = MAX_DISCORD_EMBEDS
    ∧ m.send_warning_logged = true := by
  have hne : m.links.isEmpty = false := by
    cases hl : m.links with
    | nil => rw [hl] at h; simp [MAX_DISCORD_EMBEDS] at h
    | cons a t => simp
  refine ⟨?_, ?_, ?_⟩
  · simp [ParsedMessage.get_discord_send_kwargs, hne, min_eq_right (le_of_lt h)]
  · rw [List.length_map, List.length_take]
    exact min_eq_left (le_of_lt h)
  · simp [ParsedMessage.send_warning_logged, hne, h]

/-- Witness for C1 at a message with 12 added links. -/
theorem c1_witness :
    (ParsedMessage.mk "t" (List.replicate 12 {}) []).get_discord_send_kwargs.embeds
        = some (((ParsedMessage.mk "t" (List.replicate 12 {}) []).links.take
            MAX_DISCORD_EMBEDS).map linkToEmbed)
    ∧ (((ParsedMessage.mk "t" (List.replicate 12 {}) []).links.take
          MAX_DISCORD_EMBEDS).map linkToEmbed).length = MAX_DISCORD_EMBEDS
    ∧ (ParsedMessage.mk "t" (List.replicate 12 {}) []).send_warning_logged = true :=
  c1_truncates_to_ten_embeds (ParsedMessage.mk "t" (List.replicate 12 {}) [])
    (by decide)
